import Mathlib

/-!
Verification of the neo-metric Instagram microservice against its
natural-language specification.  The Go source is shallowly embedded:
pure control flow becomes Lean functions, remote calls become explicit
environments (streams of call results), database writes become explicit
state passing, and timestamps are naturals.
-/

namespace NeoMetric

/-! ## Instagram container status (httpx/upstream/instagram/client.go)

`ContainerStatus` mirrors the five string constants EXPIRED, ERROR,
FINISHED, IN_PROGRESS, PUBLISHED. -/

inductive ContainerStatus where
  | expired
  | error
  | finished
  | inProgress
  | published
deriving DecidableEq, Repr

/-- Output of `GetContainerStatus` (fields `status_code`, `error_message`). -/
structure GetContainerStatusOutput where
  id : String
  status : ContainerStatus
  errorMessage : String
deriving DecidableEq, Repr

/-! ## waitForContainer (httpx/upstream/instagram/publisher.go, lines 224-259)

The Go loop performs at most `maxAttempts` iterations.  Each iteration
calls `GetContainerStatus` once; we embed the sequence of replies as a
stream `poll : Nat -> Except String GetContainerStatusOutput` indexed by
the attempt number.  The 5-second sleep between attempts has no effect
on the values computed, so it appears only as the constant
`pollIntervalSeconds`. -/

def maxAttempts : Nat := 30

def pollIntervalSeconds : Nat := 5

/-- `entity.ErrContainerNotReady` (publication entity errors). -/
def errContainerNotReady : String := "media container is not ready for publishing"

/-- `entity.ErrSingleMediaRequired`. -/
def errSingleMediaRequired : String := "story and reel require exactly one media item"

/-- `entity.ErrPublicationNotFound`. -/
def errPublicationNotFound : String := "publication not found"

/-- `entity.ErrPublicationNotEditable`. -/
def errPublicationNotEditable : String := "publication cannot be edited in current status"

/-- `entity.ErrInvalidPublicationType`. -/
def errInvalidPublicationType : String := "invalid publication type"

/-- One iteration body plus recursion of the `waitForContainer` loop.
`i` is the index of the next poll, `remaining` the number of loop
iterations still allowed (`maxAttempts - i` at the top level).  A
client error aborts with the wrapped message; `FINISHED`/`PUBLISHED`
end the wait successfully; `ERROR`/`EXPIRED` abort with a terminal
message; `IN_PROGRESS` continues; running out of attempts yields
`ErrContainerNotReady`. -/
def waitForContainerGo (poll : Nat → Except String GetContainerStatusOutput) :
    Nat → Nat → Except String Unit
  | _, 0 => .error errContainerNotReady
  | i, remaining + 1 =>
    match poll i with
    | .error e => .error ("checking container status: " ++ e)
    | .ok st =>
      match st.status with
      | .finished => .ok ()
      | .error => .error ("container error: " ++ st.errorMessage)
      | .expired => .error "container expired"
      | .inProgress => waitForContainerGo poll (i + 1) remaining
      | .published => .ok ()

/-- `waitForContainer`, started at attempt 0 with the full budget. -/
def waitForContainer (poll : Nat → Except String GetContainerStatusOutput) :
    Except String Unit :=
  waitForContainerGo poll 0 maxAttempts

/-- A stream whose first `k` polls report `IN_PROGRESS` lets the loop
advance `k` steps. -/
theorem waitForContainerGo_inProgress_advance
    (poll : Nat → Except String GetContainerStatusOutput) :
    ∀ (k i remaining : Nat),
      (∀ j, j < k → ∃ o, poll (i + j) = .ok o ∧ o.status = .inProgress) →
      k ≤ remaining →
      waitForContainerGo poll i remaining =
        waitForContainerGo poll (i + k) (remaining - k) := by
  intro k
  induction k with
  | zero => intro i remaining _ _; simp
  | succ k ih =>
    intro i remaining h hk
    obtain ⟨rem, rfl⟩ : ∃ rem, remaining = rem + 1 :=
      ⟨remaining - 1, by omega⟩
    obtain ⟨o, ho, hst⟩ := h 0 (Nat.succ_pos k)
    have step : waitForContainerGo poll i (rem + 1) =
        waitForContainerGo poll (i + 1) rem := by
      simp only [Nat.add_zero] at ho
      simp only [waitForContainerGo]
      rw [ho]
      simp [hst]
    rw [step, ih (i + 1) rem ?_ (by omega)]
    · congr 1 <;> omega
    · intro j hj
      have := h (j + 1) (by omega)
      simpa [Nat.add_assoc, Nat.add_comm 1 j] using this

/-- C1.  For every publish attempt, after container creation the
Publish State Machine polls the container status at a fixed 5-second
interval for at most 30 attempts.  If the first `i` polls report
`in_progress` (so polling continued through them) and poll `i`
(`i < 30`) returns `finished` or `published`, the wait ends
successfully; if it returns `error` or `expired`, the wait ends with a
terminal failure carrying the corresponding error message; and if all
30 polls report `in_progress` (the attempt cap is exceeded), the wait
ends with the distinct `ErrContainerNotReady` failure, never with
success. -/
theorem waitForContainer_poll_outcomes
    (poll : Nat → Except String GetContainerStatusOutput) :
    maxAttempts = 30 ∧ pollIntervalSeconds = 5 ∧
    (∀ i st, i < maxAttempts →
      (∀ j, j < i → ∃ o, poll j = .ok o ∧ o.status = .inProgress) →
      poll i = .ok st →
      ((st.status = .finished ∨ st.status = .published) →
        waitForContainer poll = .ok ()) ∧
      (st.status = .error →
        waitForContainer poll = .error ("container error: " ++ st.errorMessage)) ∧
      (st.status = .expired →
        waitForContainer poll = .error "container expired")) ∧
    ((∀ j, j < maxAttempts → ∃ o, poll j = .ok o ∧ o.status = .inProgress) →
      waitForContainer poll = .error errContainerNotReady ∧
      ∀ u, waitForContainer poll ≠ .ok u) := by
  refine ⟨rfl, rfl, ?_, ?_⟩
  · intro i st hi hpre hpoll
    have hadv := waitForContainerGo_inProgress_advance poll i 0 maxAttempts
      (by simpa using hpre) (Nat.le_of_lt hi)
    have hwait : waitForContainer poll =
        waitForContainerGo poll i (maxAttempts - i) := by
      simpa using hadv
    obtain ⟨rem, hrem⟩ : ∃ rem, maxAttempts - i = rem + 1 :=
      ⟨maxAttempts - i - 1, by omega⟩
    rw [hrem] at hwait
    refine ⟨?_, ?_, ?_⟩
    · rintro (hfin | hpub)
      · rw [hwait]; simp only [waitForContainerGo]; rw [hpoll]; simp [hfin]
      · rw [hwait]; simp only [waitForContainerGo]; rw [hpoll]; simp [hpub]
    · intro herr
      rw [hwait]; simp only [waitForContainerGo]; rw [hpoll]; simp [herr]
    · intro hexp
      rw [hwait]; simp only [waitForContainerGo]; rw [hpoll]; simp [hexp]
  · intro hall
    have hadv := waitForContainerGo_inProgress_advance poll maxAttempts 0 maxAttempts
      (by simpa using hall) (Nat.le_refl _)
    have hwait : waitForContainer poll =
        waitForContainerGo poll maxAttempts 0 := by
      simpa using hadv
    rw [hwait]
    exact ⟨rfl, by intro u h; exact Except.noConfusion h⟩

/-- Concrete poll stream for the witness: two `IN_PROGRESS` replies,
then `FINISHED`. -/
def pollFinishesAtTwo : Nat → Except String GetContainerStatusOutput :=
  fun j => if j < 2 then .ok ⟨"c1", .inProgress, ""⟩ else .ok ⟨"c1", .finished, ""⟩

/-- Witness for C1: on a stream that is `in_progress` twice and then
`finished`, the wait succeeds. -/
theorem waitForContainer_poll_outcomes_witness :
    waitForContainer pollFinishesAtTwo = .ok () := by
  have h := (waitForContainer_poll_outcomes pollFinishesAtTwo).2.2.1
    2 ⟨"c1", .finished, ""⟩ (by decide)
    (by
      intro j hj
      exact ⟨⟨"c1", .inProgress, ""⟩, by simp [pollFinishesAtTwo, hj], rfl⟩)
    (by simp [pollFinishesAtTwo])
  exact (h.1 (Or.inl rfl))

/-! ## Publication entities (domain/publication/entity)

Timestamps are embedded as naturals (seconds). -/

inductive EMediaType where
  | image
  | video
deriving DecidableEq, Repr

inductive PublicationType where
  | post
  | story
  | reel
deriving DecidableEq, Repr

inductive PublicationStatus where
  | draft
  | scheduled
  | published
  | error
deriving DecidableEq, Repr

/-- `entity.MediaItem`. -/
structure MediaItem where
  id : String
  url : String
  type : EMediaType
  order : Int
  createdAt : Nat
deriving DecidableEq, Repr

/-- `entity.ReelOptions`. -/
structure ReelOptions where
  shareToFeed : Option Bool
  coverURL : String
  thumbOffset : Option Int
  audioName : String
  locationID : String
  collaboratorUsernames : List String
deriving DecidableEq, Repr

/-- `entity.Publication`.  `instagramMediaID` and `errorMessage` use the
empty string for "unset", matching the Go zero value. -/
structure Publication where
  id : String
  accountID : String
  instagramMediaID : String
  type : PublicationType
  status : PublicationStatus
  caption : String
  media : List MediaItem
  reelOptions : Option ReelOptions
  scheduledAt : Option Nat
  publishedAt : Option Nat
  errorMessage : String
  createdAt : Nat
  updatedAt : Nat
deriving DecidableEq, Repr

/-- `entity.Publication.IsEditable`. -/
def Publication.isEditable (p : Publication) : Bool :=
  p.status = .draft || p.status = .scheduled

/-- `entity.Publication.CanPublish`: status scheduled and non-empty media. -/
def Publication.canPublish (p : Publication) : Bool :=
  p.status = .scheduled && p.media.length > 0

/-! ## Instagram client container creation (client.go)

`CreateMediaContainerInput.MediaType` is a Go string that is either one
of the CAROUSEL/REELS/STORIES constants or left at its zero value;
`CMediaType.unset` stands for the zero value.  The reel-option fields
are the ones the publisher assigns (the publisher sets them only for
reels). -/

inductive CMediaType where
  | unset
  | carousel
  | reels
  | stories
deriving DecidableEq, Repr

structure CreateMediaContainerInput where
  userID : String
  accessToken : String
  imageURL : String
  videoURL : String
  mediaType : CMediaType
  caption : String
  isCarousel : Bool
  children : List String
  shareToFeed : Option Bool
  coverURL : String
  thumbOffset : Option Int
  audioName : String
  locationID : String
  collaboratorUsernames : List String
deriving DecidableEq, Repr

/-- The Go zero value of `CreateMediaContainerInput`. -/
def emptyContainerInput : CreateMediaContainerInput where
  userID := ""
  accessToken := ""
  imageURL := ""
  videoURL := ""
  mediaType := .unset
  caption := ""
  isCarousel := false
  children := []
  shareToFeed := none
  coverURL := ""
  thumbOffset := none
  audioName := ""
  locationID := ""
  collaboratorUsernames := []

/-! ## Publisher (publisher.go)

Remote calls are embedded as an environment.  `createResult n` is the
reply to the n-th `CreateMediaContainer` call of the attempt (counted
from 0), `pollStatus id` the status-poll stream for container `id`,
`publishMedia` the `PublishMedia` reply, and `getMedia` the permalink
lookup reply.  Every function also returns the ordered trace of remote
interactions it performed. -/

structure PublisherEnv where
  createResult : Nat → Except String String
  pollStatus : String → Nat → Except String GetContainerStatusOutput
  publishMedia : String → Except String String
  getMedia : String → Except String String

inductive IGEvent where
  | createContainer (req : CreateMediaContainerInput)
  | waitContainer (containerID : String)
  | publishMedia (containerID : String)
  | getMedia (mediaID : String)
deriving DecidableEq, Repr

/-- `PublishOutput`. -/
structure PublishOutput where
  instagramMediaID : String
  permalink : String
deriving DecidableEq, Repr

/-- `PublishInput`. -/
structure PublishInput where
  userID : String
  accessToken : String
  publication : Publication
deriving Repr

/-- The container-creation request built by `createSingleMediaContainer`:
image or video URL according to the media type, caption only when the
item is not a carousel child, `is_carousel_item` flag for children. -/
def singleMediaReq (userID accessToken : String) (media : MediaItem)
    (caption : String) (isCarouselItem : Bool) : CreateMediaContainerInput :=
  { emptyContainerInput with
    userID := userID
    accessToken := accessToken
    imageURL := if media.type = .image then media.url else ""
    videoURL := if media.type = .image then "" else media.url
    caption := if isCarouselItem then "" else caption
    isCarousel := isCarouselItem }

/-- The parent-container request built by `createCarouselContainer`. -/
def carouselParentReq (userID accessToken caption : String)
    (children : List String) : CreateMediaContainerInput :=
  { emptyContainerInput with
    userID := userID
    accessToken := accessToken
    mediaType := .carousel
    caption := caption
    children := children }

/-- `createSingleMediaContainer` at create-call index `n`.  Returns the
next call index, the trace, and the container id or the error. -/
def createSingleMediaContainer (env : PublisherEnv) (n : Nat)
    (userID accessToken : String) (media : MediaItem) (caption : String)
    (isCarouselItem : Bool) : Nat × List IGEvent × Except String String :=
  let req := singleMediaReq userID accessToken media caption isCarouselItem
  (n + 1, [.createContainer req], env.createResult n)

/-- The child-creation loop of `createCarouselContainer`: one child
container per media item in input order, no caption, carousel flag set;
video children are waited on before the loop continues.  `idx` is the
position in the media list (used in error messages, like the Go `%d`). -/
def createCarouselChildren (env : PublisherEnv) (userID accessToken : String) :
    Nat → Nat → List MediaItem → Nat × List IGEvent × Except String (List String)
  | n, _, [] => (n, [], .ok [])
  | n, idx, m :: rest =>
    let req := singleMediaReq userID accessToken m "" true
    match env.createResult n with
    | .error e =>
      (n + 1, [.createContainer req],
        .error ("creating carousel item " ++ toString idx ++ ": " ++ e))
    | .ok childID =>
      if m.type = .video then
        match waitForContainer (env.pollStatus childID) with
        | .error e =>
          (n + 1, [.createContainer req, .waitContainer childID],
            .error ("waiting for carousel item " ++ toString idx ++ ": " ++ e))
        | .ok _ =>
          let r := createCarouselChildren env userID accessToken (n + 1) (idx + 1) rest
          (r.1, .createContainer req :: .waitContainer childID :: r.2.1,
            r.2.2.map (fun ids => childID :: ids))
      else
        let r := createCarouselChildren env userID accessToken (n + 1) (idx + 1) rest
        (r.1, .createContainer req :: r.2.1,
          r.2.2.map (fun ids => childID :: ids))

/-- `createCarouselContainer`: the child loop followed by one parent
container of carousel kind carrying the caption and all child ids. -/
def createCarouselContainer (env : PublisherEnv) (n : Nat)
    (userID accessToken : String) (media : List MediaItem) (caption : String) :
    Nat × List IGEvent × Except String String :=
  match createCarouselChildren env userID accessToken n 0 media with
  | (n', evs, .error e) => (n', evs, .error e)
  | (n', evs, .ok childIDs) =>
    let req := carouselParentReq userID accessToken caption childIDs
    match env.createResult n' with
    | .error e =>
      (n' + 1, evs ++ [.createContainer req],
        .error ("creating carousel container: " ++ e))
    | .ok id => (n' + 1, evs ++ [.createContainer req], .ok id)

/-- `publishContainer`: commit the container, then best-effort fetch the
permalink (a permalink failure is non-fatal). -/
def publishContainer (env : PublisherEnv) (userID accessToken containerID : String) :
    List IGEvent × Except String PublishOutput :=
  match env.publishMedia containerID with
  | .error e => ([.publishMedia containerID], .error ("publishing media: " ++ e))
  | .ok mediaID =>
    match env.getMedia mediaID with
    | .error _ => ([.publishMedia containerID, .getMedia mediaID], .ok ⟨mediaID, ""⟩)
    | .ok permalink =>
      ([.publishMedia containerID, .getMedia mediaID], .ok ⟨mediaID, permalink⟩)

/-- `publishStory`: exactly one media item required; a single container
of story kind with no caption; wait; commit. -/
def publishStory (env : PublisherEnv) (pin : PublishInput) :
    List IGEvent × Except String PublishOutput :=
  match pin.publication.media with
  | [media] =>
    let req := { emptyContainerInput with
      userID := pin.userID
      accessToken := pin.accessToken
      imageURL := if media.type = .image then media.url else ""
      videoURL := if media.type = .image then "" else media.url
      mediaType := .stories }
    match env.createResult 0 with
    | .error e => ([.createContainer req], .error ("creating story container: " ++ e))
    | .ok cid =>
      match waitForContainer (env.pollStatus cid) with
      | .error e =>
        ([.createContainer req, .waitContainer cid],
          .error ("waiting for story container: " ++ e))
      | .ok _ =>
        let r := publishContainer env pin.userID pin.accessToken cid
        (.createContainer req :: .waitContainer cid :: r.1, r.2)
  | _ => ([], .error errSingleMediaRequired)

/-- `publishReel`: exactly one media item of video type required; a
single container of reel kind with caption and reel options; wait;
commit. -/
def publishReel (env : PublisherEnv) (pin : PublishInput) :
    List IGEvent × Except String PublishOutput :=
  match pin.publication.media with
  | [media] =>
    if media.type ≠ .video then ([], .error "reels require video content")
    else
      let base := { emptyContainerInput with
        userID := pin.userID
        accessToken := pin.accessToken
        videoURL := media.url
        mediaType := .reels
        caption := pin.publication.caption }
      let req := match pin.publication.reelOptions with
        | none => base
        | some opts =>
          { base with
            shareToFeed := opts.shareToFeed
            coverURL := opts.coverURL
            thumbOffset := opts.thumbOffset
            audioName := opts.audioName
            locationID := opts.locationID
            collaboratorUsernames := opts.collaboratorUsernames }
      match env.createResult 0 with
      | .error e => ([.createContainer req], .error ("creating reel container: " ++ e))
      | .ok cid =>
        match waitForContainer (env.pollStatus cid) with
        | .error e =>
          ([.createContainer req, .waitContainer cid],
            .error ("waiting for reel container: " ++ e))
        | .ok _ =>
          let r := publishContainer env pin.userID pin.accessToken cid
          (.createContainer req :: .waitContainer cid :: r.1, r.2)
  | _ => ([], .error errSingleMediaRequired)

/-- `publishPost`: one container for a single media item, otherwise the
carousel path; then wait and commit. -/
def publishPost (env : PublisherEnv) (pin : PublishInput) :
    List IGEvent × Except String PublishOutput :=
  let created : Nat × List IGEvent × Except String String :=
    match pin.publication.media with
    | [m] => createSingleMediaContainer env 0 pin.userID pin.accessToken m
        pin.publication.caption false
    | ms => createCarouselContainer env 0 pin.userID pin.accessToken ms
        pin.publication.caption
  match created with
  | (_, evs, .error e) => (evs, .error ("creating media container: " ++ e))
  | (_, evs, .ok cid) =>
    match waitForContainer (env.pollStatus cid) with
    | .error e => (evs ++ [.waitContainer cid], .error ("waiting for container: " ++ e))
    | .ok _ =>
      let r := publishContainer env pin.userID pin.accessToken cid
      (evs ++ .waitContainer cid :: r.1, r.2)

/-- `Publisher.Publish`: dispatch on the publication type. -/
def publisherPublish (env : PublisherEnv) (pin : PublishInput) :
    List IGEvent × Except String PublishOutput :=
  match pin.publication.type with
  | .post => publishPost env pin
  | .story => publishStory env pin
  | .reel => publishReel env pin

/-- The id carried by a successful create reply (zero value otherwise). -/
def okId : Except String String → String
  | .ok id => id
  | .error _ => ""

/-- The ids returned by `k` consecutive successful create calls starting
at call index `n`. -/
def idsOf (env : PublisherEnv) : Nat → Nat → List String
  | _, 0 => []
  | n, k + 1 => okId (env.createResult n) :: idsOf env (n + 1) k

/-- The remote-interaction trace of a fully successful child-creation
loop starting at create-call index `n`: one create per media item in
input order, each video child followed by its wait. -/
def childTrace (env : PublisherEnv) (userID accessToken : String) :
    Nat → List MediaItem → List IGEvent
  | _, [] => []
  | n, m :: rest =>
    let req := singleMediaReq userID accessToken m "" true
    let cid := okId (env.createResult n)
    (if m.type = .video then [.createContainer req, .waitContainer cid]
     else [.createContainer req]) ++ childTrace env userID accessToken (n + 1) rest

theorem idsOf_length (env : PublisherEnv) : ∀ n k, (idsOf env n k).length = k := by
  intro n k
  induction k generalizing n with
  | zero => rfl
  | succ k ih => simp [idsOf, ih]

theorem createCarouselChildren_success (env : PublisherEnv)
    (userID accessToken : String)
    (hc : ∀ i, ∃ cid, env.createResult i = .ok cid)
    (hw : ∀ cid, waitForContainer (env.pollStatus cid) = .ok ()) :
    ∀ (media : List MediaItem) (n idx : Nat),
      createCarouselChildren env userID accessToken n idx media =
        (n + media.length, childTrace env userID accessToken n media,
          .ok (idsOf env n media.length)) := by
  intro media
  induction media with
  | nil => intro n idx; simp [createCarouselChildren, childTrace, idsOf]
  | cons m rest ih =>
    intro n idx
    obtain ⟨cid, hcid⟩ := hc n
    by_cases hv : m.type = .video
    · simp only [createCarouselChildren, hcid, hv, if_true, hw cid,
        ih (n + 1) (idx + 1)]
      simp only [Prod.mk.injEq, childTrace, idsOf]
      refine ⟨by simp only [List.length_cons]; omega, ?_, ?_⟩
      · simp [okId, hcid, hv]
      · simp [Except.map, okId, hcid]
    · simp only [createCarouselChildren, hcid, if_neg hv, ih (n + 1) (idx + 1)]
      simp only [Prod.mk.injEq, childTrace, idsOf]
      refine ⟨by simp only [List.length_cons]; omega, ?_, ?_⟩
      · simp [okId, hcid, hv]
      · simp [Except.map, okId, hcid]

/-- C6.  For a post published as a carousel (N >= 2 media items, all
remote calls succeeding), `createCarouselContainer` creates exactly one
child container per media item, in input order, each built by
`singleMediaReq` with the carousel-item flag and hence no caption, each
video child waited on before the loop proceeds; and then exactly one
parent container of carousel kind that carries the caption and
references all N child ids in order. -/
theorem createCarouselContainer_carousel_shape (env : PublisherEnv)
    (userID accessToken caption : String) (media : List MediaItem)
    (hN : 2 ≤ media.length)
    (hc : ∀ i, ∃ cid, env.createResult i = .ok cid)
    (hw : ∀ cid, waitForContainer (env.pollStatus cid) = .ok ()) :
    createCarouselContainer env 0 userID accessToken media caption =
      (media.length + 1,
        childTrace env userID accessToken 0 media ++
          [.createContainer
            (carouselParentReq userID accessToken caption
              (idsOf env 0 media.length))],
        .ok (okId (env.createResult media.length))) ∧
    (idsOf env 0 media.length).length = media.length ∧
    (carouselParentReq userID accessToken caption
        (idsOf env 0 media.length)).children = idsOf env 0 media.length ∧
    (carouselParentReq userID accessToken caption
        (idsOf env 0 media.length)).caption = caption ∧
    (carouselParentReq userID accessToken caption
        (idsOf env 0 media.length)).mediaType = .carousel ∧
    (∀ m c, (singleMediaReq userID accessToken m c true).caption = "" ∧
      (singleMediaReq userID accessToken m c true).isCarousel = true) := by
  obtain ⟨pid, hpid⟩ := hc media.length
  refine ⟨?_, idsOf_length env 0 media.length, rfl, rfl, rfl, fun m c => ⟨rfl, rfl⟩⟩
  simp only [createCarouselContainer,
    createCarouselChildren_success env userID accessToken hc hw media 0 0,
    Nat.zero_add, hpid, okId]

/-- Concrete environment for the witnesses: create call `n` returns id
`c<n>`, every container finishes on its first poll. -/
def envAllOk : PublisherEnv where
  createResult := fun n => .ok ("c" ++ toString n)
  pollStatus := fun cid _ => .ok ⟨cid, .finished, ""⟩
  publishMedia := fun _ => .ok "m1"
  getMedia := fun _ => .ok "https://permalink"

def mediaImg1 : MediaItem := ⟨"m-a", "https://a.jpg", .image, 0, 0⟩

def mediaVid2 : MediaItem := ⟨"m-b", "https://b.mp4", .video, 1, 0⟩

/-- Witness for C6: a two-item carousel (image then video) under
`envAllOk` produces the two child creates (with the wait on the video
child) and the parent carousel create referencing both ids in order. -/
theorem createCarouselContainer_carousel_shape_witness :
    createCarouselContainer envAllOk 0 "u" "t" [mediaImg1, mediaVid2] "cap" =
      (3,
        childTrace envAllOk "u" "t" 0 [mediaImg1, mediaVid2] ++
          [.createContainer (carouselParentReq "u" "t" "cap" ["c0", "c1"])],
        .ok "c2") ∧
    idsOf envAllOk 0 2 = ["c0", "c1"] := by
  have h := createCarouselContainer_carousel_shape envAllOk "u" "t" "cap"
    [mediaImg1, mediaVid2] (by decide)
    (fun i => ⟨"c" ++ toString i, rfl⟩)
    (fun cid => rfl)
  have hids : idsOf envAllOk 0 2 = ["c0", "c1"] := rfl
  exact ⟨h.1.trans (by rfl), hids⟩

/-- C9.  A publish attempt on a story with a media list that is not a
single item fails with the single-media-required error before any
remote call (empty trace); a reel likewise requires exactly one media
item, and when the single item is not a video the attempt fails with
the reels-require-video error before any remote call. -/
theorem publishStoryReel_media_validation (env : PublisherEnv) (pin : PublishInput) :
    (pin.publication.media.length ≠ 1 →
      publishStory env pin = ([], .error errSingleMediaRequired) ∧
      publishReel env pin = ([], .error errSingleMediaRequired)) ∧
    (∀ m, pin.publication.media = [m] → m.type ≠ .video →
      publishReel env pin = ([], .error "reels require video content")) := by
  constructor
  · intro hlen
    match hmed : pin.publication.media with
    | [] => exact ⟨by simp [publishStory, hmed], by simp [publishReel, hmed]⟩
    | [m] => exact absurd (by rw [hmed]; rfl) hlen
    | a :: b :: rest => exact ⟨by simp [publishStory, hmed], by simp [publishReel, hmed]⟩
  · intro m hmed hv
    simp [publishReel, hmed, hv]

/-- Concrete publications for the C9 witness. -/
def storyTwoMedia : Publication where
  id := "p1"
  accountID := "a1"
  instagramMediaID := ""
  type := .story
  status := .draft
  caption := ""
  media := [mediaImg1, mediaVid2]
  reelOptions := none
  scheduledAt := none
  publishedAt := none
  errorMessage := ""
  createdAt := 0
  updatedAt := 0

def reelImageMedia : Publication :=
  { storyTwoMedia with id := "p2", type := .reel, media := [mediaImg1] }

/-- Witness for C9: a two-item story fails with the single-media error
and an image-only reel fails with the video-required error, both with
an empty remote trace. -/
theorem publishStoryReel_media_validation_witness :
    publishStory envAllOk ⟨"u", "t", storyTwoMedia⟩ =
      ([], .error errSingleMediaRequired) ∧
    publishReel envAllOk ⟨"u", "t", reelImageMedia⟩ =
      ([], .error "reels require video content") := by
  constructor
  · exact ((publishStoryReel_media_validation envAllOk
      ⟨"u", "t", storyTwoMedia⟩).1 (by decide)).1
  · exact (publishStoryReel_media_validation envAllOk
      ⟨"u", "t", reelImageMedia⟩).2 mediaImg1 rfl (by decide)

/-! ## Publication policy (domain/publication/policy/policy.go) and
DAO status writes (domain/publication/dao/publication_postgres.go)

The publication store is a list of publications (the media table is
already joined in, as the service layer does on every read).  The
remote side of `PublishNow` is collapsed into `igPublish`, the outcome
of `Publisher.Publish` for the given credentials and publication; the
trace records whether the remote publisher was invoked. -/

structure PolicyEnv where
  accessToken : String → Except String String
  instagramUserID : String → Except String String
  igPublish : String → String → Publication → Except String PublishOutput
  now : Nat

inductive PolicyEvent where
  | remotePublish (userID accessToken : String) (pub : Publication)
deriving DecidableEq, Repr

/-- `PublicationRepository.GetByID` (first match by id). -/
def getByID (db : List Publication) (id : String) : Option Publication :=
  db.find? (fun p => p.id = id)

/-- `service.GetPublication`: not-found becomes `ErrPublicationNotFound`. -/
def getPublicationSvc (db : List Publication) (id : String) :
    Except String Publication :=
  match getByID db id with
  | none => .error errPublicationNotFound
  | some pub => .ok pub

/-- `dao.UpdateStatus` (lines 318-336): set status, error message and
updated-at of the row with the given id. -/
def updateStatusDB (db : List Publication) (id : String)
    (status : PublicationStatus) (errorMsg : String) (now : Nat) :
    List Publication :=
  db.map (fun p =>
    if p.id = id then
      { p with status := status, errorMessage := errorMsg, updatedAt := now }
    else p)

/-- `dao.SetPublished` (lines 339-352): set status published, the
Instagram media id, published-at and updated-at. -/
def setPublishedDB (db : List Publication) (id : String)
    (instagramMediaID : String) (publishedAt : Nat) (now : Nat) :
    List Publication :=
  db.map (fun p =>
    if p.id = id then
      { p with
        status := .published
        instagramMediaID := instagramMediaID
        publishedAt := some publishedAt
        updatedAt := now }
    else p)

/-- `policy.PublishNow` (lines 223-267): look the publication up;
already-published returns it unchanged; the editability gate rejects;
credentials are resolved; the remote publisher runs; a remote failure
is recorded via `MarkAsFailed` (UpdateStatus to error) and returned; a
remote success is recorded via `MarkAsPublished` (SetPublished) and the
refreshed publication returned. -/
def publishNow (env : PolicyEnv) (db : List Publication) (id : String) :
    List Publication × List PolicyEvent × Except String Publication :=
  match getPublicationSvc db id with
  | .error e => (db, [], .error e)
  | .ok pub =>
    if pub.status = .published then (db, [], .ok pub)
    else if ¬pub.canPublish ∧ pub.status ≠ .draft then
      (db, [], .error errPublicationNotEditable)
    else
      match env.accessToken pub.accountID with
      | .error e => (db, [], .error e)
      | .ok accessToken =>
        match env.instagramUserID pub.accountID with
        | .error e => (db, [], .error e)
        | .ok userID =>
          match env.igPublish userID accessToken pub with
          | .error e =>
            (updateStatusDB db id .error e env.now,
              [.remotePublish userID accessToken pub], .error e)
          | .ok result =>
            let db2 := setPublishedDB db id result.instagramMediaID env.now env.now
            match getPublicationSvc db2 id with
            | .error e => (db2, [.remotePublish userID accessToken pub], .error e)
            | .ok pub2 => (db2, [.remotePublish userID accessToken pub], .ok pub2)

theorem getByID_map_preserving (db : List Publication) (id : String)
    (f : Publication → Publication) (hf : ∀ p, (f p).id = p.id) :
    getByID (db.map f) id = (getByID db id).map f := by
  induction db with
  | nil => rfl
  | cons p rest ih =>
    by_cases hp : p.id = id
    · simp [getByID, List.find?, hf, hp]
    · simp only [getByID, List.map_cons, List.find?] at ih ⊢
      rw [hf p]
      simp only [hp]
      simpa [getByID] using ih

/-- C10.  `PublishNow` on a publication whose status is already
`published` is idempotent: it returns the publication successfully,
does not invoke the remote publisher (empty event trace) and leaves the
store unchanged. -/
theorem publishNow_already_published (env : PolicyEnv) (db : List Publication)
    (id : String) (pub : Publication)
    (hfind : getByID db id = some pub)
    (hpub : pub.status = .published) :
    publishNow env db id = (db, [], .ok pub) := by
  simp [publishNow, getPublicationSvc, hfind, hpub]

/-- Concrete store for the policy witnesses. -/
def publishedPub : Publication :=
  { storyTwoMedia with
    id := "pubA"
    type := .post
    status := .published
    instagramMediaID := "ig9"
    media := [mediaImg1] }

def draftPub : Publication :=
  { storyTwoMedia with
    id := "pubB"
    type := .post
    status := .draft
    media := [mediaImg1] }

def policyEnvOk : PolicyEnv where
  accessToken := fun _ => .ok "tok"
  instagramUserID := fun _ => .ok "uid"
  igPublish := fun _ _ _ => .ok ⟨"ig42", "https://permalink"⟩
  now := 1000

/-- Witness for C10: on a store holding one already-published
publication, `PublishNow` returns it with no remote call and the store
intact. -/
theorem publishNow_already_published_witness :
    publishNow policyEnvOk [publishedPub] "pubA" =
      ([publishedPub], [], .ok publishedPub) :=
  publishNow_already_published policyEnvOk [publishedPub] "pubA" publishedPub
    (by decide) (by decide)

/-- C7.  For a publish attempt that reaches the remote publish pipeline
(the publication exists, is not yet published, passes the editability
gate, and credentials resolve): if the pipeline fails, the publication
is recorded with status `error` and the failure message and the failure
is returned to the caller; if the pipeline succeeds, the publication is
recorded with status `published`, the remote media id, and the publish
timestamp, and returned. -/
theorem publishNow_records_outcome (env : PolicyEnv) (db : List Publication)
    (id : String) (pub : Publication) (accessToken userID : String)
    (hfind : getByID db id = some pub)
    (hid : pub.id = id)
    (hnp : pub.status ≠ .published)
    (hgate : pub.canPublish = true ∨ pub.status = .draft)
    (htok : env.accessToken pub.accountID = .ok accessToken)
    (huid : env.instagramUserID pub.accountID = .ok userID) :
    (∀ e, env.igPublish userID accessToken pub = .error e →
      publishNow env db id =
        (updateStatusDB db id .error e env.now,
          [.remotePublish userID accessToken pub], .error e) ∧
      getByID (updateStatusDB db id .error e env.now) id =
        some { pub with
          status := .error
          errorMessage := e
          updatedAt := env.now }) ∧
    (∀ out, env.igPublish userID accessToken pub = .ok out →
      publishNow env db id =
        (setPublishedDB db id out.instagramMediaID env.now env.now,
          [.remotePublish userID accessToken pub],
          .ok { pub with
            status := .published
            instagramMediaID := out.instagramMediaID
            publishedAt := some env.now
            updatedAt := env.now })) := by
  constructor
  · intro e hpubres
    have hdb : getByID (updateStatusDB db id .error e env.now) id =
        some { pub with
          status := .error
          errorMessage := e
          updatedAt := env.now } := by
      simp only [updateStatusDB]
      rw [getByID_map_preserving db id _
        (fun p => by by_cases h : p.id = id <;> simp [h]), hfind]
      simp [hid]
    refine ⟨?_, hdb⟩
    rcases hgate with hg | hg <;>
      simp [publishNow, getPublicationSvc, hfind, hnp, htok, huid, hpubres, hg]
  · intro out hpubres
    have hdb : getByID (setPublishedDB db id out.instagramMediaID env.now env.now) id =
        some { pub with
          status := .published
          instagramMediaID := out.instagramMediaID
          publishedAt := some env.now
          updatedAt := env.now } := by
      simp only [setPublishedDB]
      rw [getByID_map_preserving db id _
        (fun p => by by_cases h : p.id = id <;> simp [h]), hfind]
      simp [hid]
    rcases hgate with hg | hg <;>
      simp [publishNow, getPublicationSvc, hfind, hnp, htok, huid, hpubres, hg, hdb]

/-- Environment whose remote publish fails, for the failure half of the
C7 witness. -/
def policyEnvFail : PolicyEnv :=
  { policyEnvOk with igPublish := fun _ _ _ => .error "remote down" }

/-- Witness for C7: a draft publication whose remote publish fails is
stored with status `error` and message `remote down`, and the error is
returned; the same draft under a succeeding environment is stored and
returned as `published` with remote id `ig42` and timestamp 1000. -/
theorem publishNow_records_outcome_witness :
    (publishNow policyEnvFail [draftPub] "pubB").2.2 = .error "remote down" ∧
    getByID (publishNow policyEnvFail [draftPub] "pubB").1 "pubB" =
      some { draftPub with
        status := .error
        errorMessage := "remote down"
        updatedAt := 1000 } ∧
    (publishNow policyEnvOk [draftPub] "pubB").2.2 =
      .ok { draftPub with
        status := .published
        instagramMediaID := "ig42"
        publishedAt := some 1000
        updatedAt := 1000 } := by
  have hfail := ((publishNow_records_outcome policyEnvFail [draftPub] "pubB"
    draftPub "tok" "uid" (by decide) (by decide) (by decide)
    (Or.inr (by decide)) rfl rfl).1 "remote down" rfl)
  have hok := ((publishNow_records_outcome policyEnvOk [draftPub] "pubB"
    draftPub "tok" "uid" (by decide) (by decide) (by decide)
    (Or.inr (by decide)) rfl rfl).2 ⟨"ig42", "https://permalink"⟩ rfl)
  refine ⟨?_, ?_, ?_⟩
  · rw [hfail.1]
  · rw [hfail.1]
    exact hfail.2
  · rw [hok]
    rfl

/-! ## Comment and direct-message entities (domain/comment/entity,
domain/direct/entity) -/

structure Comment where
  id : String
  mediaID : String
  authorID : String
  username : String
  text : String
  timestamp : Nat
  likeCount : Int
  isHidden : Bool
  parentID : String
  repliesCount : Int
  replyToUsername : String
deriving DecidableEq, Repr

inductive MessageType where
  | text
  | image
  | video
  | share
  | audio
  | storyMention
deriving DecidableEq, Repr

structure Message where
  id : String
  conversationID : String
  senderID : String
  type : MessageType
  text : String
  mediaURL : String
  mediaType : String
  isUnsent : Bool
  isFromMe : Bool
  timestamp : Nat
  createdAt : Nat
deriving DecidableEq, Repr

structure Conversation where
  id : String
  accountID : String
  participantID : String
  participantUsername : String
  participantName : String
  participantAvatarURL : String
  participantFollowersCount : Int
  lastMessageText : String
  lastMessageAt : Option Nat
  lastMessageIsFromMe : Bool
  unreadCount : Int
  createdAt : Nat
  updatedAt : Nat
deriving DecidableEq, Repr

/-- `service.CommentsResult`. -/
structure CommentsResult where
  comments : List Comment
  nextCursor : String
  hasMore : Bool
deriving DecidableEq, Repr

/-- `service.MessagesResult`. -/
structure MessagesResult where
  messages : List Message
  nextCursor : String
  hasMore : Bool
deriving DecidableEq, Repr

/-- `service.ConversationsResult`. -/
structure ConversationsResult where
  conversations : List Conversation
  nextCursor : String
  hasMore : Bool
deriving DecidableEq, Repr

/-! ## Drain-sync loops (C2)

Each loop fetches pages from the remote source; the reply to the i-th
fetch of the call is `pages i`.  The embedding returns `some (pages
fetched, data accumulated)` when the loop exits, and `none` when the
given fuel is exhausted with the loop still running: a drain that
returns `none` for every fuel never terminates.

`syncCommentsFromInstagram` (comment/service/service.go, lines 179-208)
accumulates all comments and exits only when a page reports no more
data or an empty cursor.  `syncMessagesFromInstagram`
(direct/service/service.go, lines 304-387) dispatches each non-empty
page as an asynchronous batch save (the batches are accumulated in
order here; their concurrent persistence is not modelled) and has the
same exit condition.  `SyncConversations` (lines 478-578) additionally
counts consecutive empty pages and breaks once `maxEmptyPages` is
reached. -/

def syncCommentsLoop (pages : Nat → CommentsResult) :
    Nat → Nat → List Comment → Option (Nat × List Comment)
  | 0, _, _ => none
  | fuel + 1, i, acc =>
    let result := pages i
    let acc2 := acc ++ result.comments
    if ¬result.hasMore ∨ result.nextCursor = "" then some (i + 1, acc2)
    else syncCommentsLoop pages fuel (i + 1) acc2

def syncMessagesLoop (pages : Nat → MessagesResult) :
    Nat → Nat → List (List Message) → Option (Nat × List (List Message))
  | 0, _, _ => none
  | fuel + 1, i, batches =>
    let result := pages i
    let batches2 :=
      if result.messages.length > 0 then batches ++ [result.messages] else batches
    if ¬result.hasMore ∨ result.nextCursor = "" then some (i + 1, batches2)
    else syncMessagesLoop pages fuel (i + 1) batches2

/-- `maxEmptyPages` constant of `SyncConversations`. -/
def maxEmptyPages : Nat := 3

def syncConversationsLoop (pages : Nat → ConversationsResult) :
    Nat → Nat → Nat → List (List Conversation) →
      Option (Nat × List (List Conversation))
  | 0, _, _, _ => none
  | fuel + 1, i, emptyPages, batches =>
    let result := pages i
    if result.conversations.length = 0 ∧ emptyPages + 1 ≥ maxEmptyPages then
      some (i + 1, batches)
    else
      let emptyPages2 :=
        if result.conversations.length = 0 then emptyPages + 1 else 0
      let batches2 :=
        if result.conversations.length > 0 then batches ++ [result.conversations]
        else batches
      if ¬result.hasMore ∨ result.nextCursor = "" then some (i + 1, batches2)
      else syncConversationsLoop pages fuel (i + 1) emptyPages2 batches2

/-- The observed failure mode: every page is empty, has a non-empty
cursor and reports more data. -/
def emptyMoreCommentsPages : Nat → CommentsResult := fun _ => ⟨[], "next", true⟩

def emptyMoreMessagesPages : Nat → MessagesResult := fun _ => ⟨[], "next", true⟩

def emptyMoreConversationsPages : Nat → ConversationsResult :=
  fun _ => ⟨[], "next", true⟩

/-- Counterexample to C2: on a remote source that keeps returning empty
pages with a non-empty cursor and has-more set, the comment drain and
the message drain are both still looping after 10 fetched pages (well
past 3 consecutive empty pages), while the conversation drain stops
after 3 pages. -/
theorem syncLoops_emptyPages_counterexample :
    syncCommentsLoop emptyMoreCommentsPages 10 0 [] = none ∧
    syncMessagesLoop emptyMoreMessagesPages 10 0 [] = none ∧
    syncConversationsLoop emptyMoreConversationsPages 10 0 0 [] = some (3, []) :=
  ⟨rfl, rfl, rfl⟩

/-- C2 (amended).  When the remote source returns an unbroken sequence
of empty pages with a non-empty cursor and has-more set, only the
conversation-list drain terminates, after exactly `maxEmptyPages = 3`
consecutive empty pages; the comment drain and the message drain have
no empty-page guard and never exit the loop on such input (they return
`none` for every fuel). -/
theorem syncLoops_emptyPages_guard
    (commentPages : Nat → CommentsResult)
    (messagePages : Nat → MessagesResult)
    (convPages : Nat → ConversationsResult)
    (hcp : ∀ i, commentPages i = ⟨[], "next", true⟩ ∨
      ((commentPages i).comments = [] ∧ (commentPages i).hasMore = true ∧
        (commentPages i).nextCursor ≠ ""))
    (hmp : ∀ i, (messagePages i).messages = [] ∧ (messagePages i).hasMore = true ∧
      (messagePages i).nextCursor ≠ "")
    (hvp : ∀ i, (convPages i).conversations = [] ∧ (convPages i).hasMore = true ∧
      (convPages i).nextCursor ≠ "") :
    maxEmptyPages = 3 ∧
    (∀ fuel, maxEmptyPages ≤ fuel →
      syncConversationsLoop convPages fuel 0 0 [] = some (3, [])) ∧
    (∀ fuel i acc, syncCommentsLoop commentPages fuel i acc = none) ∧
    (∀ fuel i batches, syncMessagesLoop messagePages fuel i batches = none) := by
  have hcp' : ∀ i, (commentPages i).comments = [] ∧ (commentPages i).hasMore = true ∧
      (commentPages i).nextCursor ≠ "" := by
    intro i
    rcases hcp i with h | h
    · rw [h]; exact ⟨rfl, rfl, by decide⟩
    · exact h
  refine ⟨rfl, ?_, ?_, ?_⟩
  · intro fuel hfuel
    have h3 : 3 ≤ fuel := by simpa [maxEmptyPages] using hfuel
    obtain ⟨f, rfl⟩ : ∃ f, fuel = f + 3 := ⟨fuel - 3, by omega⟩
    obtain ⟨h0a, h0b, h0c⟩ := hvp 0
    obtain ⟨h1a, h1b, h1c⟩ := hvp 1
    obtain ⟨h2a, h2b, h2c⟩ := hvp 2
    simp [syncConversationsLoop, maxEmptyPages, h0a, h0b, h0c, h1a, h1b, h1c,
      h2a, h2b, h2c]
  · intro fuel
    induction fuel with
    | zero => intro i acc; rfl
    | succ fuel ih =>
      intro i acc
      obtain ⟨ha, hb, hc⟩ := hcp' i
      simp [syncCommentsLoop, ha, hb, hc, ih]
  · intro fuel
    induction fuel with
    | zero => intro i batches; rfl
    | succ fuel ih =>
      intro i batches
      obtain ⟨ha, hb, hc⟩ := hmp i
      simp [syncMessagesLoop, ha, hb, hc, ih]

/-- Witness for the amended C2: on the concrete all-empty streams, the
conversation drain stops after exactly 3 pages while the comment and
message drains are still running at fuel 5. -/
theorem syncLoops_emptyPages_guard_witness :
    syncConversationsLoop emptyMoreConversationsPages 3 0 0 [] = some (3, []) ∧
    syncCommentsLoop emptyMoreCommentsPages 5 0 [] = none ∧
    syncMessagesLoop emptyMoreMessagesPages 5 0 [] = none := by
  have hnext : ("next" : String) ≠ "" := by decide
  have h := syncLoops_emptyPages_guard emptyMoreCommentsPages
    emptyMoreMessagesPages emptyMoreConversationsPages
    (fun i => Or.inl rfl)
    (fun i => ⟨rfl, rfl, hnext⟩)
    (fun i => ⟨rfl, rfl, hnext⟩)
  exact ⟨h.2.1 3 (by decide), h.2.2.1 5 0 [], h.2.2.2 5 0 []⟩

/-! ## Cache-backed reads (C8)

`getCommentsWithCache` (comment/service/service.go, lines 126-176) and
`GetMessages` (direct/service/service.go, lines 251-300).  The sync
status lookup, the drain-sync outcome and the cache contents are given
by an environment; repository reads themselves are the total functions
of the cached list. -/

/-- `service.SyncStatus` of the comment domain. -/
structure SvcCommentSyncStatus where
  instagramMediaID : String
  lastSyncedAt : Nat
  nextCursor : String
  syncComplete : Bool
deriving DecidableEq, Repr

/-- `service.ConversationSyncStatus` of the direct domain. -/
structure SvcConversationSyncStatus where
  conversationID : String
  lastSyncedAt : Nat
  nextCursor : String
  syncComplete : Bool
  oldestMessageTimestamp : Option Nat
deriving DecidableEq, Repr

/-- `syncMaxAge` default: 5 minutes, in seconds. -/
def syncMaxAge : Nat := 300

structure CommentReadEnv where
  syncStatus : Except String (Option SvcCommentSyncStatus)
  syncOutcome : Except String Unit
  cached : List Comment
  now : Nat

structure GetCommentsOutput where
  comments : List Comment
  nextCursor : String
  hasMore : Bool
deriving DecidableEq, Repr

/-- The cache-serving tail of `getCommentsWithCache`: fetch `limit + 1`
rows at offset 0, report has-more when more than `limit` came back, and
trim to `limit`; the next cursor is left empty. -/
def serveCommentsFromCache (env : CommentReadEnv) (limit : Int) :
    GetCommentsOutput :=
  let comments := env.cached.take (limit + 1).toNat
  let hasMore := (comments.length : Int) > limit
  let trimmed := if hasMore then comments.take limit.toNat else comments
  ⟨trimmed, "", hasMore⟩

/-- `getCommentsWithCache`: look up sync status; sync when absent or
stale; if the sync fails, serve the stale cache when a prior sync
status exists and propagate the error when none does; then serve from
the repository. -/
def getCommentsWithCache (env : CommentReadEnv) (limit : Int) :
    Except String GetCommentsOutput :=
  match env.syncStatus with
  | .error e => .error e
  | .ok syncStatus =>
    let needsSync : Bool :=
      match syncStatus with
      | none => true
      | some st => decide (env.now - st.lastSyncedAt > syncMaxAge)
    if needsSync then
      match env.syncOutcome with
      | .error e =>
        match syncStatus with
        | some _ => .ok (serveCommentsFromCache env limit)
        | none => .error e
      | .ok _ => .ok (serveCommentsFromCache env limit)
    else .ok (serveCommentsFromCache env limit)

structure MessagesReadEnv where
  syncStatus : Except String (Option SvcConversationSyncStatus)
  syncOutcome : Except String Unit
  cached : List Message
  now : Nat

structure GetMessagesOutput where
  messages : List Message
  total : Int
  hasMore : Bool
deriving DecidableEq, Repr

/-- The cache-serving tail of `GetMessages`: a page of the cached
messages, the total count, and has-more from offset plus page size
against the total. -/
def serveMessagesFromCache (env : MessagesReadEnv) (limit offset : Int) :
    GetMessagesOutput :=
  let msgs := (env.cached.drop offset.toNat).take limit.toNat
  let total : Int := env.cached.length
  ⟨msgs, total, offset + msgs.length < total⟩

/-- `GetMessages` (repository-backed path): look up sync status; sync
when absent or stale; a sync failure is only logged — the cache is
served regardless, whether or not a prior sync status exists. -/
def getMessagesWithCache (env : MessagesReadEnv) (limit offset : Int) :
    Except String GetMessagesOutput :=
  match env.syncStatus with
  | .error e => .error ("getting sync status: " ++ e)
  | .ok syncStatus =>
    let needsSync : Bool :=
      match syncStatus with
      | none => true
      | some st => decide (env.now - st.lastSyncedAt > syncMaxAge)
    if needsSync then
      match env.syncOutcome with
      | .error _ => .ok (serveMessagesFromCache env limit offset)
      | .ok _ => .ok (serveMessagesFromCache env limit offset)
    else .ok (serveMessagesFromCache env limit offset)

/-- Counterexample to C8: a message read with no prior sync status and
an empty cache whose drain sync fails returns a successful empty page —
the error is not propagated to the caller. -/
theorem getMessages_no_cache_error_swallowed :
    getMessagesWithCache ⟨.ok none, .error "instagram down", [], 1000⟩ 50 0 =
      .ok ⟨[], 0, false⟩ :=
  rfl

/-- C8 (amended).  On a failed drain sync, the comment read path obeys
the claim: with a prior sync status the stale cache is served, with
none the error is propagated.  The message read path always swallows
the sync error and serves the cache (possibly empty), even when no
prior sync status exists. -/
theorem cacheReads_on_sync_failure
    (cenv : CommentReadEnv) (menv : MessagesReadEnv) (e : String)
    (limit offset : Int) :
    (cenv.syncStatus = .ok none → cenv.syncOutcome = .error e →
      getCommentsWithCache cenv limit = .error e) ∧
    (∀ st, cenv.syncStatus = .ok (some st) →
      cenv.now - st.lastSyncedAt > syncMaxAge →
      cenv.syncOutcome = .error e →
      getCommentsWithCache cenv limit = .ok (serveCommentsFromCache cenv limit)) ∧
    (menv.syncStatus = .ok none → menv.syncOutcome = .error e →
      getMessagesWithCache menv limit offset =
        .ok (serveMessagesFromCache menv limit offset)) := by
  refine ⟨?_, ?_, ?_⟩
  · intro hst hout
    simp [getCommentsWithCache, hst, hout]
  · intro st hst hstale hout
    simp [getCommentsWithCache, hst, hout, hstale]
  · intro hst hout
    simp [getMessagesWithCache, hst, hout]

/-- Witness for the amended C8 at concrete environments: a comment read
with no sync status propagates the failed sync error; one with a stale
status serves the cache; a message read with no sync status serves the
(empty) cache successfully. -/
theorem cacheReads_on_sync_failure_witness :
    getCommentsWithCache ⟨.ok none, .error "boom", [], 1000⟩ 50 = .error "boom" ∧
    getCommentsWithCache
      ⟨.ok (some ⟨"m1", 0, "", true⟩), .error "boom", [], 1000⟩ 50 =
      .ok (serveCommentsFromCache
        ⟨.ok (some ⟨"m1", 0, "", true⟩), .error "boom", [], 1000⟩ 50) ∧
    getMessagesWithCache ⟨.ok none, .error "boom", [], 1000⟩ 50 0 =
      .ok (serveMessagesFromCache ⟨.ok none, .error "boom", [], 1000⟩ 50 0) := by
  refine ⟨?_, ?_, ?_⟩
  · exact (cacheReads_on_sync_failure ⟨.ok none, .error "boom", [], 1000⟩
      ⟨.ok none, .error "boom", [], 1000⟩ "boom" 50 0).1 rfl rfl
  · exact (cacheReads_on_sync_failure
      ⟨.ok (some ⟨"m1", 0, "", true⟩), .error "boom", [], 1000⟩
      ⟨.ok none, .error "boom", [], 1000⟩ "boom" 50 0).2.1
      ⟨"m1", 0, "", true⟩ rfl (by decide) rfl
  · exact (cacheReads_on_sync_failure ⟨.ok none, .error "boom", [], 1000⟩
      ⟨.ok none, .error "boom", [], 1000⟩ "boom" 50 0).2.2 rfl rfl

/-! ## Comment sync-status rows and retry bookkeeping
(domain/comment/dao/comment_postgres.go, migrations 002 and 009)

One `comment_sync_status` row, keyed by media id; the state of a single
unit is `Option CommentSyncRow` (`none` = no row).  Column defaults on
insert come from the migrations: `retry_count` 0, `failed` false,
`last_error` NULL, `sync_complete` false, `next_cursor` NULL (the DAO
maps NULL to the empty string). -/

structure CommentSyncRow where
  lastSyncedAt : Nat
  nextCursor : String
  syncComplete : Bool
  retryCount : Nat
  failed : Bool
  lastError : Option String
deriving DecidableEq, Repr

/-- `dao.UpdateSyncStatus` (lines 400-426): upsert of last-synced-at,
next-cursor and sync-complete; on conflict the retry columns are left
untouched, on insert they take their defaults. -/
def updateSyncStatusRow (st : Option CommentSyncRow) (lastSyncedAt : Nat)
    (nextCursor : String) (syncComplete : Bool) : Option CommentSyncRow :=
  match st with
  | none => some
    { lastSyncedAt := lastSyncedAt
      nextCursor := nextCursor
      syncComplete := syncComplete
      retryCount := 0
      failed := false
      lastError := none }
  | some r => some
    { r with
      lastSyncedAt := lastSyncedAt
      nextCursor := nextCursor
      syncComplete := syncComplete }

/-- `dao.IncrementRetryCount` (lines 465-482): insert with retry count
1 and `failed = (1 >= maxRetries)`, or bump the existing count and set
`failed = (retry_count + 1 >= maxRetries)`; either way record the error
and stamp last-synced-at with now. -/
def incrementRetryCountRow (st : Option CommentSyncRow) (lastError : String)
    (maxRetries : Nat) (now : Nat) : Option CommentSyncRow :=
  match st with
  | none => some
    { lastSyncedAt := now
      nextCursor := ""
      syncComplete := false
      retryCount := 1
      failed := decide (1 ≥ maxRetries)
      lastError := some lastError }
  | some r => some
    { r with
      retryCount := r.retryCount + 1
      failed := decide (r.retryCount + 1 ≥ maxRetries)
      lastError := some lastError
      lastSyncedAt := now }

/-- `dao.ResetRetryCount` (lines 485-498): an UPDATE that zeroes the
retry count, clears `failed` and the error; a missing row is left
missing. -/
def resetRetryCountRow (st : Option CommentSyncRow) : Option CommentSyncRow :=
  st.map (fun r => { r with retryCount := 0, failed := false, lastError := none })

/-! C4: the two successful-sync paths of the comment domain.
`syncCommentsFromInstagram` ends every successful sync with
`UpdateSyncStatus` (empty cursor, sync complete); the sweeper
(`scheduler.syncMedia`, lines 190-218) additionally calls
`ResetRetryCount` afterwards, the on-demand reader path
(`getCommentsWithCache`) does not. -/

/-- The state written by a successful on-demand (reader-triggered)
sync: `UpdateSyncStatus` only. -/
def onDemandSyncSuccess (st : Option CommentSyncRow) (now : Nat) :
    Option CommentSyncRow :=
  updateSyncStatusRow st now "" true

/-- The state written by a successful sweeper-triggered sync:
`UpdateSyncStatus` then `ResetRetryCount`. -/
def sweeperSyncSuccess (st : Option CommentSyncRow) (now : Nat) :
    Option CommentSyncRow :=
  resetRetryCountRow (updateSyncStatusRow st now "" true)

/-- A failed unit: 5 retries, marked failed. -/
def failedRow : CommentSyncRow :=
  { lastSyncedAt := 0
    nextCursor := ""
    syncComplete := false
    retryCount := 5
    failed := true
    lastError := some "instagram down" }

/-- Counterexample to C4: a successful on-demand (reader-triggered)
sync on a unit that is currently failed with 5 retries leaves
`failed = true` and `retryCount = 5` — it does not reset them. -/
theorem onDemandSyncSuccess_keeps_failed :
    (onDemandSyncSuccess (some failedRow) 1000).map (fun r => r.failed) =
      some true ∧
    (onDemandSyncSuccess (some failedRow) 1000).map (fun r => r.retryCount) =
      some 5 :=
  ⟨rfl, rfl⟩

/-- C4 (amended).  A sweeper-triggered successful sync always resets
`retryCount` to 0 and `failed` to false, regardless of prior state; an
on-demand reader-triggered successful sync updates only the
last-synced-at, cursor and completion fields and leaves `retryCount`
and `failed` of an existing row unchanged. -/
theorem syncSuccess_retry_reset (st : Option CommentSyncRow) (now : Nat) :
    (∃ r, sweeperSyncSuccess st now = some r ∧
      r.retryCount = 0 ∧ r.failed = false) ∧
    (∀ r, st = some r →
      onDemandSyncSuccess st now =
        some { r with
          lastSyncedAt := now
          nextCursor := ""
          syncComplete := true } ∧
      (onDemandSyncSuccess st now).map (fun x => x.retryCount) =
        some r.retryCount ∧
      (onDemandSyncSuccess st now).map (fun x => x.failed) = some r.failed) := by
  constructor
  · cases st with
    | none => exact ⟨_, rfl, rfl, rfl⟩
    | some r => exact ⟨_, rfl, rfl, rfl⟩
  · intro r hr
    subst hr
    exact ⟨rfl, rfl, rfl⟩

/-- Witness for the amended C4: starting from the failed row, the
sweeper path ends with retry count 0 and `failed = false`, and the
on-demand path preserves the failed flag. -/
theorem syncSuccess_retry_reset_witness :
    (∃ r, sweeperSyncSuccess (some failedRow) 1000 = some r ∧
      r.retryCount = 0 ∧ r.failed = false) ∧
    (onDemandSyncSuccess (some failedRow) 1000).map (fun x => x.failed) =
      some failedRow.failed := by
  have h := syncSuccess_retry_reset (some failedRow) 1000
  exact ⟨h.1, (h.2 failedRow rfl).2.2⟩

/-! C5: the retry-bookkeeping invariant.  Any interleaving of the three
DAO operations on one unit, starting from no row, keeps
`failed = true -> retryCount >= maxRetries` (for one fixed
`maxRetries`, as every caller passes the scheduler's constant). -/

inductive SyncOp where
  | increment (lastError : String) (now : Nat)
  | reset
  | update (lastSyncedAt : Nat) (nextCursor : String) (syncComplete : Bool)
deriving DecidableEq, Repr

def applySyncOp (maxRetries : Nat) (st : Option CommentSyncRow) :
    SyncOp → Option CommentSyncRow
  | .increment lastError now => incrementRetryCountRow st lastError maxRetries now
  | .reset => resetRetryCountRow st
  | .update lastSyncedAt nextCursor syncComplete =>
    updateSyncStatusRow st lastSyncedAt nextCursor syncComplete

/-- The C5 invariant on a unit's row. -/
def retryInvariant (maxRetries : Nat) : Option CommentSyncRow → Prop
  | none => True
  | some r => r.failed = true → maxRetries ≤ r.retryCount

theorem applySyncOp_preserves_invariant (maxRetries : Nat)
    (st : Option CommentSyncRow) (op : SyncOp)
    (h : retryInvariant maxRetries st) :
    retryInvariant maxRetries (applySyncOp maxRetries st op) := by
  cases op with
  | increment lastError now =>
    cases st with
    | none =>
      simp only [applySyncOp, incrementRetryCountRow, retryInvariant]
      intro hf
      simpa using of_decide_eq_true hf
    | some r =>
      simp only [applySyncOp, incrementRetryCountRow, retryInvariant]
      intro hf
      simpa using of_decide_eq_true hf
  | reset =>
    cases st with
    | none => exact trivial
    | some r =>
      simp only [applySyncOp, resetRetryCountRow, Option.map_some, retryInvariant]
      intro hf
      exact absurd hf (by simp)
  | update lastSyncedAt nextCursor syncComplete =>
    cases st with
    | none =>
      simp only [applySyncOp, updateSyncStatusRow, retryInvariant]
      intro hf
      exact absurd hf (by simp)
    | some r =>
      simp only [applySyncOp, updateSyncStatusRow, retryInvariant] at h ⊢
      exact h

/-- C5.  For every sync unit: under any sequence of
`IncrementRetryCount` (with one fixed `maxRetries`), `ResetRetryCount`
and `UpdateSyncStatus` operations starting from no status, the
invariant `failed = true -> retryCount >= maxRetries` holds after every
operation (hence after every prefix of the sequence). -/
theorem retryInvariant_holds (maxRetries : Nat) (ops : List SyncOp) :
    retryInvariant maxRetries (ops.foldl (applySyncOp maxRetries) none) := by
  suffices h : ∀ (st : Option CommentSyncRow), retryInvariant maxRetries st →
      retryInvariant maxRetries (ops.foldl (applySyncOp maxRetries) st) from
    h none trivial
  induction ops with
  | nil => intro st hst; exact hst
  | cons op rest ih =>
    intro st hst
    exact ih _ (applySyncOp_preserves_invariant maxRetries st op hst)

/-! ## Background-sweep selection queries (C3)

`GetMediaIDsNeedingSync` (comment/dao/comment_postgres.go, lines
431-462), `GetAccountsNeedingSync` and `GetConversationsNeedingSync`
(direct/dao/sync_postgres.go, lines 185-244).  Each SQL query is a
filter over the joined rows, an ORDER BY on
`COALESCE(last_synced_at, epoch)` ascending (epoch embedded as 0), and
a LIMIT.  Sorting is embedded as insertion sort; the tie order inside
equal keys is unspecified by SQL and irrelevant to the membership
properties proved here. -/

def insertSorted {α : Type} (key : α → Nat) (x : α) : List α → List α
  | [] => [x]
  | y :: ys => if key x ≤ key y then x :: y :: ys else y :: insertSorted key x ys

def sortByKey {α : Type} (key : α → Nat) : List α → List α
  | [] => []
  | x :: xs => insertSorted key x (sortByKey key xs)

theorem mem_insertSorted {α : Type} (key : α → Nat) (x a : α) :
    ∀ l : List α, a ∈ insertSorted key x l ↔ a = x ∨ a ∈ l := by
  intro l
  induction l with
  | nil => simp [insertSorted]
  | cons y ys ih =>
    by_cases h : key x ≤ key y
    · simp [insertSorted, h]
    · simp [insertSorted, h, ih]
      tauto

theorem mem_sortByKey {α : Type} (key : α → Nat) (a : α) :
    ∀ l : List α, a ∈ sortByKey key l ↔ a ∈ l := by
  intro l
  induction l with
  | nil => simp [sortByKey]
  | cons x xs ih => simp [sortByKey, mem_insertSorted, ih]

/-- One joined row of the comment-sweep query: a publication (its
Instagram media id is nullable, stories are excluded in the WHERE
clause) left-joined with its `comment_sync_status` row. -/
structure CommentSweepRow where
  instagramMediaID : Option String
  status : PublicationStatus
  type : PublicationType
  css : Option CommentSyncRow
deriving DecidableEq, Repr

/-- The WHERE clause of `GetMediaIDsNeedingSync`: media id present,
publication published and not a story, sync status absent or not
failed, and absent or older than the cutoff. -/
def commentNeedsSyncPred (cutoff : Nat) (row : CommentSweepRow) : Bool :=
  row.instagramMediaID.isSome &&
  row.status = PublicationStatus.published &&
  !(row.type = PublicationType.story) &&
  (match row.css with | none => true | some c => !c.failed) &&
  (match row.css with | none => true | some c => decide (c.lastSyncedAt < cutoff))

def getMediaIDsNeedingSync (rows : List CommentSweepRow) (cutoff limit : Nat) :
    List String :=
  (((sortByKey (fun r => match r.css with | none => 0 | some c => c.lastSyncedAt)
      (rows.filter (commentNeedsSyncPred cutoff))).take limit).filterMap
    (fun r => r.instagramMediaID))

/-- A `dm_account_sync_status` row (with the migration-009 retry
columns). -/
structure AccountSyncRow where
  lastSyncedAt : Nat
  nextCursor : String
  syncComplete : Bool
  retryCount : Nat
  failed : Bool
  lastError : Option String
deriving DecidableEq, Repr

/-- One joined row of the account-sweep query: an `instagram_accounts`
row left-joined with its sync status. -/
structure AccountSweepRow where
  accountID : String
  status : Option AccountSyncRow
deriving DecidableEq, Repr

/-- The WHERE clause of `GetAccountsNeedingSync`: status absent or
stale — there is no condition on `failed`. -/
def accountNeedsSyncPred (cutoff : Nat) (row : AccountSweepRow) : Bool :=
  match row.status with
  | none => true
  | some s => decide (s.lastSyncedAt < cutoff)

def getAccountsNeedingSync (rows : List AccountSweepRow) (cutoff limit : Nat) :
    List String :=
  ((sortByKey (fun r => match r.status with | none => 0 | some s => s.lastSyncedAt)
      (rows.filter (accountNeedsSyncPred cutoff))).take limit).map
    (fun r => r.accountID)

/-- A `dm_conversation_sync_status` row. -/
structure ConvSyncRow where
  lastSyncedAt : Nat
  nextCursor : String
  syncComplete : Bool
  oldestMessageTimestamp : Option Nat
  retryCount : Nat
  failed : Bool
  lastError : Option String
deriving DecidableEq, Repr

/-- One joined row of the conversation-sweep query: a `dm_conversations`
row left-joined with its sync status. -/
structure ConvSweepRow where
  convID : String
  accountID : String
  status : Option ConvSyncRow
deriving DecidableEq, Repr

/-- The WHERE clause of `GetConversationsNeedingSync` for a given
account: account match and (status absent or stale) — again no
condition on `failed`. -/
def convNeedsSyncPred (accountID : String) (cutoff : Nat)
    (row : ConvSweepRow) : Bool :=
  row.accountID = accountID &&
  (match row.status with | none => true | some s => decide (s.lastSyncedAt < cutoff))

def getConversationsNeedingSync (rows : List ConvSweepRow) (accountID : String)
    (cutoff limit : Nat) : List String :=
  ((sortByKey (fun r => match r.status with | none => 0 | some s => s.lastSyncedAt)
      (rows.filter (convNeedsSyncPred accountID cutoff))).take limit).map
    (fun r => r.convID)

/-- An account row that is stale and marked failed, and a conversation
row in the same state. -/
def failedAccountRow : AccountSweepRow :=
  ⟨"acc1", some ⟨0, "", true, 5, true, some "instagram down"⟩⟩

def failedConvRow : ConvSweepRow :=
  ⟨"conv1", "acc1", some ⟨0, "", true, none, 5, true, some "instagram down"⟩⟩

/-- Counterexample to C3: the account-sweep and conversation-sweep
selection queries return a unit whose sync status has `failed = true`
(stale failed rows are selected); only the comment-sweep query filters
on `failed`. -/
theorem directSweep_includes_failed_counterexample :
    getAccountsNeedingSync [failedAccountRow] 100 10 = ["acc1"] ∧
    getConversationsNeedingSync [failedConvRow] "acc1" 100 10 = ["conv1"] :=
  ⟨rfl, rfl⟩

/-- C3 (amended).  The comment-sweep query never returns a unit whose
sync status has `failed = true`: every returned media id comes from a
row whose sync status is absent or not failed.  The direct-domain
queries do not filter on `failed`: any stale row — failed or not — in a
singleton row set is returned (given a positive limit). -/
theorem sweepSelection_failed_handling
    (rows : List CommentSweepRow) (cutoff limit : Nat) :
    (∀ id, id ∈ getMediaIDsNeedingSync rows cutoff limit →
      ∃ row ∈ rows, row.instagramMediaID = some id ∧
        ∀ c, row.css = some c → c.failed = false) ∧
    (∀ (r : AccountSweepRow) (s : AccountSyncRow) (lim : Nat),
      r.status = some s → s.lastSyncedAt < cutoff → 1 ≤ lim →
      getAccountsNeedingSync [r] cutoff lim = [r.accountID]) ∧
    (∀ (r : ConvSweepRow) (s : ConvSyncRow) (accountID : String) (lim : Nat),
      r.status = some s → s.lastSyncedAt < cutoff → 1 ≤ lim →
      r.accountID = accountID →
      getConversationsNeedingSync [r] accountID cutoff lim = [r.convID]) := by
  refine ⟨?_, ?_, ?_⟩
  · intro id hid
    simp only [getMediaIDsNeedingSync, List.mem_filterMap] at hid
    obtain ⟨row, hrow, hmid⟩ := hid
    have hrow2 : row ∈ sortByKey
        (fun r => match r.css with | none => 0 | some c => c.lastSyncedAt)
        (rows.filter (commentNeedsSyncPred cutoff)) :=
      List.take_subset _ _ hrow
    rw [mem_sortByKey] at hrow2
    rw [List.mem_filter] at hrow2
    obtain ⟨hmem, hpred⟩ := hrow2
    refine ⟨row, hmem, hmid, ?_⟩
    intro c hc
    simp only [commentNeedsSyncPred, hc, Bool.and_eq_true, Bool.not_eq_true',
      decide_eq_true_eq] at hpred
    exact hpred.1.2
  · intro r s lim hst hlt hlim
    obtain ⟨k, rfl⟩ : ∃ k, lim = k + 1 := ⟨lim - 1, by omega⟩
    have hpred : accountNeedsSyncPred cutoff r = true := by
      simp [accountNeedsSyncPred, hst, hlt]
    simp [getAccountsNeedingSync, List.filter, hpred, sortByKey, insertSorted]
  · intro r s accountID lim hst hlt hlim hacc
    obtain ⟨k, rfl⟩ : ∃ k, lim = k + 1 := ⟨lim - 1, by omega⟩
    have hpred : convNeedsSyncPred accountID cutoff r = true := by
      simp [convNeedsSyncPred, hst, hlt, hacc]
    simp [getConversationsNeedingSync, List.filter, hpred, sortByKey, insertSorted]

/-- Witness for the amended C3: on a one-row set with a failed comment
sync status nothing is returned (vacuously, every returned id comes
from a non-failed row), and the failed stale account and conversation
rows are returned by the direct queries. -/
theorem sweepSelection_failed_handling_witness :
    getMediaIDsNeedingSync
      [⟨some "m1", .published, .post, some failedRow⟩] 100 10 = [] ∧
    getAccountsNeedingSync [failedAccountRow] 100 10 = ["acc1"] ∧
    getConversationsNeedingSync [failedConvRow] "acc1" 100 10 = ["conv1"] := by
  have h := sweepSelection_failed_handling
    [⟨some "m1", .published, .post, some failedRow⟩] 100 10
  refine ⟨rfl, ?_, ?_⟩
  · exact h.2.1 failedAccountRow ⟨0, "", true, 5, true, some "instagram down"⟩
      10 rfl (by decide) (by decide)
  · exact h.2.2 failedConvRow ⟨0, "", true, none, 5, true, some "instagram down"⟩
      "acc1" 10 rfl (by decide) (by decide) rfl

end NeoMetric
